import Mathlib

/-
Verification development for the ctypes FFI layer of this repository
(src/vm/src/stdlib/ctypes/function.rs and src/vm/src/stdlib/ctypes/loaders.rs).

The Rust code is shallowly embedded: managed Python values are modelled by
the inductive `PyObj`, fallible operations return `Except PyErr`, machine
integers are `Nat`/`Int` with explicit `% 2^w` reductions, and the opaque
native world (symbol tables, native call results, native library opens) is
passed in as explicit parameters.  Managed callables are identified by a
numeric id whose semantics is supplied by a `CallEnv` environment.
-/

namespace Ctypes

/-- Calling conventions used by the ctypes layer (libffi::middle::Abi,
restricted to the variants this code constructs: Cdecl for CDLL/PyDLL,
Stdcall for WinDLL/OleDLL, plus the libffi Default). -/
inductive Abi where
  | default
  | cdecl
  | stdcall
deriving DecidableEq, Repr

/-- Canonical name string of an `Abi` (PyCFuncPtr::get_abi in function.rs). -/
def abiName : Abi → String
  | Abi.cdecl => "cdecl"
  | Abi.stdcall => "stdcall"
  | Abi.default => "default"

/-- Native value kinds (libffi::middle::Type as used by this code). -/
inductive FfiType where
  | void
  | sint8
  | uint8
  | sint16
  | uint16
  | sint32
  | uint32
  | sint64
  | uint64
  | float
  | double
  | pointer
deriving DecidableEq, Repr

/-- Modelled from the spec: `ffi_type_from_str` lives in
src/vm/src/stdlib/ctypes/base.rs, which is not among the sources; the
tag table follows the spec one-character vocabulary (i/l int32, I/L uint32,
q int64, Q uint64, b int8, B uint8, h int16, H uint16, f float32, d float64,
? bool as native uint8, P raw pointer, z byte-string pointer). -/
def ffiTypeFromStr : String → Option FfiType
  | "b" => some FfiType.sint8
  | "B" => some FfiType.uint8
  | "h" => some FfiType.sint16
  | "H" => some FfiType.uint16
  | "i" => some FfiType.sint32
  | "l" => some FfiType.sint32
  | "I" => some FfiType.uint32
  | "L" => some FfiType.uint32
  | "q" => some FfiType.sint64
  | "Q" => some FfiType.uint64
  | "f" => some FfiType.float
  | "d" => some FfiType.double
  | "?" => some FfiType.uint8
  | "P" => some FfiType.pointer
  | "z" => some FfiType.pointer
  | _ => none

/-- Error kinds raised by the embedded code, mirroring the vm error
constructors used in function.rs / loaders.rs. -/
inductive PyErr where
  | typeError (msg : String)
  | attributeError (msg : String)
  | osError (msg : String)
  | notImplementedError (msg : String)
deriving DecidableEq, Repr

/-- Managed values, restricted to the shapes the ctypes layer handles.
Managed callables carry an id interpreted by a `CallEnv`; `ctypeType tag`
is a ctypes type object whose `_type_` attribute is the string `tag`;
`csimple`/`carray` are instances convertible by the argument adapters;
`funcPtrObj` is the object identity of a `PyCFuncPtr` handle.
Floats are kept at the representation level: `floatFromF32Bits bits` is the
f64 boxed from widening an f32 result with the given bits, and
`floatFromF64Bits bits` the f64 with the given bits. -/
inductive PyObj where
  | none
  | int (n : Int)
  | boolv (b : Bool)
  | floatFromF32Bits (bits : Nat)
  | floatFromF64Bits (bits : Nat)
  | bytes (bs : List Nat)
  | str (s : String)
  | tuple (elems : List PyObj)
  | ctypeType (tag : String)
  | callableObj (id : Nat)
  | csimple (tag : String) (payload : Int)
  | carray (id : Nat)
  | funcPtrObj (name : String) (libraryName : Option String)

/-- A native shared library: its exported symbol table, mapping
NUL-terminated symbol names to entry-point addresses. -/
abbrev Library := List (String × Nat)

/-- The process-wide library cache of loaders.rs (LIBCACHE): path string to
opened library. -/
abbrev LibCache := List (String × Library)

/-- Association-list lookup by string key. -/
def lookupKey {α : Type} (l : List (String × α)) (k : String) : Option α :=
  (l.find? (fun kv => kv.1 == k)).map (fun kv => kv.2)

/-- The raw outcome of one native call: the (up to 64-bit) result register
and, for byte-string-pointer results, the bytes at the returned address. -/
structure NativeRet where
  raw : Nat
  mem : List Nat
deriving DecidableEq, Repr

/-- Semantics of managed callables: id and positional arguments to result. -/
abbrev CallEnv := Nat → List PyObj → Except PyErr PyObj

/-- Marshalled native arguments (the libffi `Arg` values built per call).
Modelled from the spec: the per-kind adapters `PyCSimple::to_arg` and
`PyCArray::to_arg` live in base.rs / array.rs, which are not among the
sources; numeric wrapper instances convert directly, array instances become
buffer references. -/
inductive FfiArg where
  | simple (tag : String) (payload : Int) (ty : FfiType)
  | buffer (id : Nat)
deriving DecidableEq, Repr

/-- The opaque native world: entry-point address and marshalled arguments to
the raw native result. -/
abbrev NativeWorld := Nat → List FfiArg → NativeRet

/-- Outcome of a native library open attempt (libloading::Library::new):
either the opened library or a native diagnostic string. -/
abbrev NativeOpen := String → Except String Library

/-- Reinterpret the low `w` bits of a register as an unsigned integer. -/
def readU (w : Nat) (r : NativeRet) : Nat := r.raw % 2 ^ w

/-- Two's-complement reading of a `w`-bit unsigned value. -/
def toSigned (w : Nat) (n : Nat) : Int :=
  if n < 2 ^ (w - 1) then (n : Int) else (n : Int) - 2 ^ w

/-- Reinterpret the low `w` bits of a register as a signed integer. -/
def readI (w : Nat) (r : NativeRet) : Int := toSigned w (readU w r)

/-- The NUL terminator appended to symbol names before resolution
(`format!("{}\0", function)` in Function::load). -/
def nulString : String := String.singleton (Char.ofNat 0)

def loadErrMsg (path e : String) : String :=
  "Failed to load library '" ++ path ++ "': " ++ e

def libMissingMsg (l : String) : String :=
  "Library " ++ l ++ " not found in cache or unloaded"

def libNotFoundMsg (l : String) : String :=
  "Library " ++ l ++ " not found or unloaded"

def arityMsg (expected got : Nat) : String :=
  "Expected " ++ toString expected ++ " arguments (based on _argtypes_), got "
    ++ toString got

/-- Symbol-resolution failure message; the concrete diagnostic text produced
by libloading is platform-specific and is modelled abstractly. -/
def symbolNotFoundMsg (fn : String) : String :=
  "symbol '" ++ fn ++ "' not found in library"

def invalidArgTagMsg (tag : String) : String :=
  "Invalid _type_ string '" ++ tag ++ "' in argtypes"

def invalidResTagMsg (tag : String) : String :=
  "Invalid _type_ string '" ++ tag ++ "' in restype"

def argtypesNotTupleMsg : String :=
  "_argtypes_ must be a tuple of ctypes types or None."

def noTypeAttrMsg : String :=
  "argtype does not have a _type_ attribute"

def restypeInvalidMsg : String :=
  "restype must be a ctypes type, a callable, or None"

def unsupportedResultMsg (tag : String) : String :=
  "Unsupported _type_ string '" ++ tag ++ "' in restype for result conversion"

def invalidRestypeDuringCallMsg : String :=
  "Invalid original_restype found during call"

def unsupportedArgMsg : String :=
  "Argument type not yet supported for FFI call"

def errcheckNotCallableMsg : String := "errcheck must be callable or None"

def cfunctypeMsg : String :=
  "Calling CFUNCTYPE instances not fully implemented here yet"

/-- Structural `mapM` over `Except` (the element-wise collection used for the
argtypes tuple in Function::load). -/
def exMapM {α β : Type} (g : α → Except PyErr β) : List α → Except PyErr (List β)
  | [] => Except.ok []
  | a :: rest =>
    match g a with
    | Except.error e => Except.error e
    | Except.ok b =>
      match exMapM g rest with
      | Except.error e => Except.error e
      | Except.ok bs => Except.ok (b :: bs)

/-- One argtypes tuple element to its native type: read the `_type_`
attribute (present exactly on ctypes type descriptors) and translate the tag
(Function::load, argtypes arm). -/
def argElemFfiType : PyObj → Except PyErr FfiType
  | PyObj.ctypeType tag =>
    match ffiTypeFromStr tag with
    | some t => Except.ok t
    | Option.none => Except.error (PyErr.typeError (invalidArgTagMsg tag))
  | _ => Except.error (PyErr.typeError noTypeAttrMsg)

/-- The declared-argument-type resolution of Function::load: a tuple is
mapped element-wise; an explicit managed None and an absent field both yield
the empty native argument list; anything else is a type error. -/
def ffiArgTypesFromArgtypes : Option PyObj → Except PyErr (List FfiType)
  | some (PyObj.tuple elems) => exMapM argElemFfiType elems
  | some PyObj.none => Except.ok []
  | Option.none => Except.ok []
  | some _ => Except.error (PyErr.typeError argtypesNotTupleMsg)

/-- Return-source classification of Function::load: absent or managed None
is void; a ctypes type descriptor with a recognized tag is typed; any other
callable is transformed with a c_int native return; anything else fails. -/
def classifyRestype : Option PyObj → Except PyErr (FfiType × Option PyObj)
  | Option.none => Except.ok (FfiType.void, Option.none)
  | some PyObj.none => Except.ok (FfiType.void, Option.none)
  | some (PyObj.ctypeType tag) =>
    match ffiTypeFromStr tag with
    | some t => Except.ok (t, some (PyObj.ctypeType tag))
    | Option.none => Except.error (PyErr.typeError (invalidResTagMsg tag))
  | some (PyObj.callableObj id) =>
    Except.ok (FfiType.sint32, some (PyObj.callableObj id))
  | some _ => Except.error (PyErr.typeError restypeInvalidMsg)

/-- The native call interface: `Cif::new(args, ret)` in Function::load.
The libffi middle-layer constructor receives exactly the argument types and
the return type; no calling convention is passed to it. -/
structure Cif where
  argTypes : List FfiType
  retType : FfiType
deriving DecidableEq, Repr

/-- The Function struct of function.rs: resolved argument types, entry-point
address, call interface, native return type and the originally stored
restype object.  (The source declares an `abi` field as well but its
constructor never initializes or reads it.) -/
structure Function where
  args : List FfiType
  pointer : Nat
  cif : Cif
  ffiReturnType : FfiType
  originalRestype : Option PyObj

/-- Function::load: resolve the declared argument types, resolve the
NUL-terminated symbol name in the library (failing with an attribute error
when absent), classify the return source, and build the call interface from
the argument types and the return type. -/
def Function.load (lib : Library) (function : String)
    (argtypesOpt restypeObj : Option PyObj) (abi : Abi) :
    Except PyErr Function :=
  match ffiArgTypesFromArgtypes argtypesOpt with
  | Except.error e => Except.error e
  | Except.ok ffiArgTypes =>
    match lookupKey lib (function ++ nulString) with
    | Option.none =>
      Except.error (PyErr.attributeError (symbolNotFoundMsg function))
    | some codePtr =>
      match classifyRestype restypeObj with
      | Except.error e => Except.error e
      | Except.ok rt =>
        Except.ok
          { args := ffiArgTypes
            pointer := codePtr
            cif := { argTypes := ffiArgTypes, retType := rt.1 }
            ffiReturnType := rt.1
            originalRestype := rt.2 }

/-- Per-argument conversion (Function::call): PyCSimple instances convert
via their declared native type, PyCArray instances become buffer
references, anything else fails. -/
def toFfiArg (o : PyObj) (t : FfiType) : Except PyErr FfiArg :=
  match o with
  | PyObj.csimple tag payload => Except.ok (FfiArg.simple tag payload t)
  | PyObj.carray id => Except.ok (FfiArg.buffer id)
  | _ => Except.error (PyErr.typeError unsupportedArgMsg)

/-- Convert the supplied managed arguments against the resolved native
argument types, position by position. -/
def convertArgs (args : List PyObj) (tys : List FfiType) :
    Except PyErr (List FfiArg) :=
  exMapM (fun p => toFfiArg p.1 p.2) (args.zip tys)

/-- Whether a result tag is handled by the result-conversion match of
Function::call. -/
def resultTagSupported : String → Bool
  | "i" | "l" | "I" | "L" | "q" | "Q" | "b" | "B" | "h" | "H"
  | "f" | "d" | "?" | "P" | "z" => true
  | _ => false

/-- Result decoding for a typed restype tag (the per-tag match of
Function::call): each arm reads the raw native result at the tag's width and
boxes it; P and z null-check the pointer first. -/
def decodeTyped (tag : String) (r : NativeRet) : Except PyErr PyObj :=
  match tag with
  | "i" | "l" => Except.ok (PyObj.int (readI 32 r))
  | "I" | "L" => Except.ok (PyObj.int (readU 32 r))
  | "q" => Except.ok (PyObj.int (readI 64 r))
  | "Q" => Except.ok (PyObj.int (readU 64 r))
  | "b" => Except.ok (PyObj.int (readI 8 r))
  | "B" => Except.ok (PyObj.int (readU 8 r))
  | "h" => Except.ok (PyObj.int (readI 16 r))
  | "H" => Except.ok (PyObj.int (readU 16 r))
  | "f" => Except.ok (PyObj.floatFromF32Bits (readU 32 r))
  | "d" => Except.ok (PyObj.floatFromF64Bits (readU 64 r))
  | "?" => Except.ok (PyObj.boolv (readU 8 r != 0))
  | "P" =>
    if readU 64 r = 0 then Except.ok PyObj.none
    else Except.ok (PyObj.int (readU 64 r))
  | "z" =>
    if readU 64 r = 0 then Except.ok PyObj.none
    else Except.ok (PyObj.bytes (r.mem.takeWhile (fun b => b != 0)))
  | _ => Except.error (PyErr.typeError (unsupportedResultMsg tag))

/-- Function::call, instrumented: the result together with the number of
native invocations performed (0 or 1).  The arity check runs first; then
arguments are converted; then the native call is performed and its result
decoded according to the stored restype (the unsupported-tag and
invalid-restype arms of the source return before any native call). -/
def Function.callT (f : Function) (env : CallEnv) (nw : NativeWorld)
    (args : List PyObj) : Except PyErr PyObj × Nat :=
  if args.length ≠ f.args.length then
    (Except.error (PyErr.typeError (arityMsg f.args.length args.length)), 0)
  else
    match convertArgs args f.args with
    | Except.error e => (Except.error e, 0)
    | Except.ok ffiArgs =>
      match f.originalRestype with
      | Option.none => (Except.ok PyObj.none, 1)
      | some (PyObj.ctypeType tag) =>
        (decodeTyped tag (nw f.pointer ffiArgs),
          cond (resultTagSupported tag) 1 0)
      | some (PyObj.callableObj id) =>
        (env id [PyObj.int (readI 32 (nw f.pointer ffiArgs))], 1)
      | some _ =>
        (Except.error (PyErr.typeError invalidRestypeDuringCallMsg), 0)

/-- The PyCFuncPtr handle of function.rs: symbol name, stored restype
object, owning library key (None for callback-bound handles), calling
convention, stored argtypes object and the optional error-check hook
(always a managed callable, enforced by its setter, hence kept as an id). -/
structure PyCFuncPtr where
  name : String
  restype : Option PyObj
  libraryName : Option String
  abi : Abi
  argtypes : Option PyObj
  errcheck : Option Nat

/-- PyCFuncPtr::new_for_dll: a fresh symbol-bound handle whose metadata
fields all start empty and whose convention is the owning library's. -/
def newForDll (name : String) (libraryName : String) (abi : Abi) :
    PyCFuncPtr :=
  { name := name
    restype := Option.none
    libraryName := some libraryName
    abi := abi
    argtypes := Option.none
    errcheck := Option.none }

/-- The managed object identity of a handle (`zelf.as_object()`), as seen by
the error-check hook. -/
def PyCFuncPtr.asObject (h : PyCFuncPtr) : PyObj :=
  PyObj.funcPtrObj h.name h.libraryName

/-- PyCFuncPtr::set_restype: managed None clears the field, any other value
is stored unconditionally; the setter has no failure path. -/
def setRestype (h : PyCFuncPtr) (v : PyObj) : PyCFuncPtr :=
  match v with
  | PyObj.none => { h with restype := Option.none }
  | other => { h with restype := some other }

/-- PyCFuncPtr::set_errcheck: managed None clears the hook, a callable is
stored, anything else is a type error. -/
def setErrcheck (h : PyCFuncPtr) (v : PyObj) : Except PyErr PyCFuncPtr :=
  match v with
  | PyObj.none => Except.ok { h with errcheck := Option.none }
  | PyObj.callableObj id => Except.ok { h with errcheck := some id }
  | _ => Except.error (PyErr.typeError errcheckNotCallableMsg)

/-- Callable::call for PyCFuncPtr: callback-bound handles are
unimplemented; symbol-bound handles re-resolve the library in the cache,
load a fresh Function from the current metadata, execute it, and pass the
raw result through the error-check hook (with the handle object and the
original arguments as an ordered tuple) when one is set. -/
def pyCFuncPtrCall (h : PyCFuncPtr) (reg : LibCache) (env : CallEnv)
    (nw : NativeWorld) (args : List PyObj) : Except PyErr PyObj :=
  match h.libraryName with
  | Option.none => Except.error (PyErr.notImplementedError cfunctypeMsg)
  | some libName =>
    match lookupKey reg libName with
    | Option.none => Except.error (PyErr.osError (libNotFoundMsg libName))
    | some library =>
      match Function.load library h.name h.argtypes h.restype h.abi with
      | Except.error e => Except.error e
      | Except.ok f =>
        match (Function.callT f env nw args).1 with
        | Except.error e => Except.error e
        | Except.ok raw =>
          match h.errcheck with
          | some id => env id [raw, h.asObject, PyObj.tuple args]
          | Option.none => Except.ok raw

/-- A library handle (the shared shape of PyCDLL / PyWinDLL / PyOleDLL /
PyPyDLL in loaders.rs): the cache key and the default convention attached to
handles it creates. -/
structure DllHandle where
  libraryName : String
  defaultAbi : Abi
deriving DecidableEq, Repr

/-- The shared py_new of the four loader flavors, instrumented with the
number of native open attempts performed (0 or 1): under the single write
acquisition, check the cache for the path and insert a freshly opened
library when absent; a native open failure surfaces as an os error and
leaves the cache unmodified. -/
def dllNewWith (abi : Abi) (nopen : NativeOpen) (st : LibCache)
    (path : String) : Except PyErr DllHandle × LibCache × Nat :=
  if (lookupKey st path).isSome then
    (Except.ok { libraryName := path, defaultAbi := abi }, st, 0)
  else
    match nopen path with
    | Except.ok lib =>
      (Except.ok { libraryName := path, defaultAbi := abi },
        st ++ [(path, lib)], 1)
    | Except.error e =>
      (Except.error (PyErr.osError (loadErrMsg path e)), st, 1)

/-- PyCDLL::py_new (default convention Cdecl). -/
def pyCDLLNew : NativeOpen → LibCache → String →
    Except PyErr DllHandle × LibCache × Nat := dllNewWith Abi.cdecl

/-- PyWinDLL::py_new (default convention Stdcall). -/
def pyWinDLLNew : NativeOpen → LibCache → String →
    Except PyErr DllHandle × LibCache × Nat := dllNewWith Abi.stdcall

/-- PyOleDLL::py_new (default convention Stdcall). -/
def pyOleDLLNew : NativeOpen → LibCache → String →
    Except PyErr DllHandle × LibCache × Nat := dllNewWith Abi.stdcall

/-- PyPyDLL::py_new (default convention Cdecl). -/
def pyPyDLLNew : NativeOpen → LibCache → String →
    Except PyErr DllHandle × LibCache × Nat := dllNewWith Abi.cdecl

/-- The shared getattro of the four loader flavors: check that the library
is still in the cache, then manufacture a fresh symbol-bound handle for the
requested name with this flavor's default convention.  The library's symbol
table is never consulted here. -/
def dllGetattr (d : DllHandle) (reg : LibCache) (name : String) :
    Except PyErr PyCFuncPtr :=
  match lookupKey reg d.libraryName with
  | Option.none => Except.error (PyErr.osError (libMissingMsg d.libraryName))
  | some _ => Except.ok (newForDll name d.libraryName d.defaultAbi)

/-- Modelled from the spec: the spec's open operation canonicalizes the
path before keying the registry, but no canonicalization step exists in
loaders.rs (the verbatim string is the key).  Only the fragment needed to
witness canonical equality of two distinct spellings is modelled here: a
leading ./ component does not change the file a path denotes. -/
def canonicalPath (p : String) : String :=
  if p.data.take 2 = ['.', '/'] then { data := p.data.drop 2 } else p

/-- Program counter of one thread running the get-or-insert open protocol of
loaders.rs under the cache's write lock: acquire the lock and check for an
entry, then (still holding) insert a freshly opened library when absent,
then release and hand out the handle referencing the entry. -/
inductive TPc where
  | idle
  | checked (found : Bool)
  | acted
  | done (res : Option Library)
deriving DecidableEq, Repr

/-- Two concurrent callers of the open protocol sharing the cache: the
write lock (holder thread, if any), the cache contents, the number of
native loads performed, and each thread's program counter. -/
structure RegSys where
  lock : Option Bool
  entries : LibCache
  loads : Nat
  thrA : TPc
  thrB : TPc
deriving DecidableEq, Repr

/-- One atomic step of thread A opening path `p` (the native open returning
`nl`): acquiring the write lock and the existence check happen together;
the insert is a separate step taken while still holding; release happens
only after the insert. -/
def stepA (p : String) (nl : Library) (s : RegSys) : RegSys :=
  match s.thrA with
  | TPc.idle =>
    match s.lock with
    | Option.none =>
      { s with lock := some false
               thrA := TPc.checked (lookupKey s.entries p).isSome }
    | some _ => s
  | TPc.checked found =>
    if s.lock = some false then
      if found then { s with thrA := TPc.acted }
      else
        { s with thrA := TPc.acted
                 entries := s.entries ++ [(p, nl)]
                 loads := s.loads + 1 }
    else s
  | TPc.acted =>
    if s.lock = some false then
      { s with lock := Option.none, thrA := TPc.done (lookupKey s.entries p) }
    else s
  | TPc.done _ => s

/-- One atomic step of thread B (symmetric to `stepA`). -/
def stepB (p : String) (nl : Library) (s : RegSys) : RegSys :=
  match s.thrB with
  | TPc.idle =>
    match s.lock with
    | Option.none =>
      { s with lock := some true
               thrB := TPc.checked (lookupKey s.entries p).isSome }
    | some _ => s
  | TPc.checked found =>
    if s.lock = some true then
      if found then { s with thrB := TPc.acted }
      else
        { s with thrB := TPc.acted
                 entries := s.entries ++ [(p, nl)]
                 loads := s.loads + 1 }
    else s
  | TPc.acted =>
    if s.lock = some true then
      { s with lock := Option.none, thrB := TPc.done (lookupKey s.entries p) }
    else s
  | TPc.done _ => s

/-- Scheduler step: `false` schedules thread A, `true` thread B. -/
def regStep (p : String) (nl : Library) (i : Bool) (s : RegSys) : RegSys :=
  if i then stepB p nl s else stepA p nl s

/-- Run a schedule (an arbitrary interleaving of the two threads). -/
def regRun (p : String) (nl : Library) (sched : List Bool) (s : RegSys) :
    RegSys :=
  sched.foldl (fun t i => regStep p nl i t) s

/-- Initial state: lock free, cache empty, no loads, both threads idle. -/
def regInit : RegSys :=
  { lock := Option.none
    entries := []
    loads := 0
    thrA := TPc.idle
    thrB := TPc.idle }

/-- Whether a thread currently holds the write lock. -/
def inCrit : TPc → Bool
  | TPc.checked _ => true
  | TPc.acted => true
  | _ => false

/-- Per-thread invariant relating a program counter to the cache: a
recorded check result is accurate, a thread past its insert step sees the
entry present, and a finished thread observed exactly the loaded entry. -/
def pcInv (p : String) (nl : Library) (entries : LibCache) : TPc → Prop
  | TPc.idle => True
  | TPc.checked found =>
    if found then entries = [(p, nl)] else entries = []
  | TPc.acted => entries = [(p, nl)]
  | TPc.done r => r = some nl ∧ entries = [(p, nl)]

/-- System invariant: lock ownership matches the program counters, the
cache holds either nothing or exactly the once-loaded entry (with the load
count agreeing), and each thread satisfies its per-thread invariant. -/
def RegInv (p : String) (nl : Library) (s : RegSys) : Prop :=
  ((s.lock = some false) ↔ inCrit s.thrA = true) ∧
  ((s.lock = some true) ↔ inCrit s.thrB = true) ∧
  ((s.entries = [] ∧ s.loads = 0) ∨ (s.entries = [(p, nl)] ∧ s.loads = 1)) ∧
  pcInv p nl s.entries s.thrA ∧
  pcInv p nl s.entries s.thrB

/-- The tag vocabulary of the result-conversion table. -/
def supportedResultTags : List String :=
  ["i", "l", "I", "L", "q", "Q", "b", "B", "h", "H", "f", "d", "?", "P", "z"]

/-- The spec's result table, written from its words: i/l an int32, I/L a
uint32, q an int64, Q a uint64, b an int8, B a uint8, h an int16, H a
uint16, f a float32, d a float64, ? a bool read as native uint8 with
nonzero meaning true, P the managed no-value for a native null pointer and
otherwise an address-sized integer, z the managed no-value for a native
null and otherwise the bytes up to and excluding the first zero byte. -/
def specWrap (tag : String) (r : NativeRet) : PyObj :=
  match tag with
  | "i" | "l" => PyObj.int (toSigned 32 (r.raw % 2 ^ 32))
  | "I" | "L" => PyObj.int (r.raw % 2 ^ 32)
  | "q" => PyObj.int (toSigned 64 (r.raw % 2 ^ 64))
  | "Q" => PyObj.int (r.raw % 2 ^ 64)
  | "b" => PyObj.int (toSigned 8 (r.raw % 2 ^ 8))
  | "B" => PyObj.int (r.raw % 2 ^ 8)
  | "h" => PyObj.int (toSigned 16 (r.raw % 2 ^ 16))
  | "H" => PyObj.int (r.raw % 2 ^ 16)
  | "f" => PyObj.floatFromF32Bits (r.raw % 2 ^ 32)
  | "d" => PyObj.floatFromF64Bits (r.raw % 2 ^ 64)
  | "?" => PyObj.boolv (r.raw % 2 ^ 8 != 0)
  | "P" =>
    if r.raw % 2 ^ 64 = 0 then PyObj.none else PyObj.int (r.raw % 2 ^ 64)
  | "z" =>
    if r.raw % 2 ^ 64 = 0 then PyObj.none
    else PyObj.bytes (r.mem.takeWhile (fun b => b != 0))
  | _ => PyObj.none

lemma lookupKey_nil {α : Type} (k : String) :
    lookupKey ([] : List (String × α)) k = Option.none := rfl

lemma lookupKey_single {α : Type} (k : String) (v : α) :
    lookupKey [(k, v)] k = some v := by
  simp [lookupKey]

lemma exMapM_length {α β : Type} (g : α → Except PyErr β) :
    ∀ (l : List α) (r : List β), exMapM g l = Except.ok r → r.length = l.length := by
  intro l
  induction l with
  | nil =>
    intro r hr
    simp only [exMapM] at hr
    cases hr
    rfl
  | cons a rest ih =>
    intro r hr
    simp only [exMapM] at hr
    cases hga : g a with
    | error e => rw [hga] at hr; cases hr
    | ok b =>
      rw [hga] at hr
      cases hrest : exMapM g rest with
      | error e => rw [hrest] at hr; cases hr
      | ok bs =>
        rw [hrest] at hr
        cases hr
        simp [ih bs hrest]

lemma stepA_preserves (p : String) (nl : Library) :
    ∀ s : RegSys, RegInv p nl s → RegInv p nl (stepA p nl s) := by
  rintro ⟨lk, ent, lds, ta, tb⟩ ⟨hA, hB, hent, hpa, hpb⟩
  simp only at hA hB hent hpa hpb
  cases ta with
  | idle =>
    cases lk with
    | none =>
      simp only [stepA, RegInv, inCrit, pcInv]
      simp only [inCrit] at hA hB
      refine ⟨by simp, ?_, hent, ?_, ?_⟩
      · simpa using hB
      · rcases hent with ⟨he, _⟩ | ⟨he, _⟩
        · subst he; simp [lookupKey_nil]
        · subst he; simp [lookupKey_single]
      · exact hpb
    | some w =>
      simp only [stepA]
      exact ⟨hA, hB, hent, hpa, hpb⟩
  | checked found =>
    have hlk : lk = some false := by
      simp only [inCrit] at hA
      exact hA.mpr trivial
    subst hlk
    cases found with
    | true =>
      simp only [stepA, if_pos rfl, RegInv, inCrit, pcInv]
      simp only [pcInv, if_pos rfl] at hpa
      simp only [inCrit] at hB
      refine ⟨by simp, by simpa using hB, hent, hpa, hpb⟩
    | false =>
      simp [pcInv] at hpa
      subst hpa
      rcases hent with ⟨_, hld⟩ | ⟨he, _⟩
      · subst hld
        simp only [stepA, if_pos rfl, RegInv, inCrit, pcInv]
        refine ⟨by simp, ?_, ?_, by simp, ?_⟩
        · simp only [inCrit] at hB
          simpa using hB
        · right; simp
        · simp only [inCrit] at hB
          have htb : inCrit tb = false := by
            cases htb2 : inCrit tb
            · rfl
            · exact absurd (hB.mpr htb2) (by simp)
          cases tb with
          | idle => simp [pcInv]
          | checked f2 => simp [inCrit] at htb
          | acted => simp [inCrit] at htb
          | done r =>
            simp only [pcInv] at hpb
            exact absurd hpb.2 (by simp)
      · exact absurd he (by simp)
  | acted =>
    have hlk : lk = some false := by
      simp only [inCrit] at hA
      exact hA.mpr trivial
    subst hlk
    simp only [pcInv] at hpa
    simp only [stepA, if_pos rfl, RegInv, inCrit, pcInv]
    subst hpa
    simp only [inCrit] at hB
    refine ⟨by simp, by simpa using hB, hent, ?_, hpb⟩
    exact ⟨by simp [lookupKey_single], rfl⟩
  | done r =>
    simp only [stepA]
    exact ⟨hA, hB, hent, hpa, hpb⟩

lemma stepB_preserves (p : String) (nl : Library) :
    ∀ s : RegSys, RegInv p nl s → RegInv p nl (stepB p nl s) := by
  rintro ⟨lk, ent, lds, ta, tb⟩ ⟨hA, hB, hent, hpa, hpb⟩
  simp only at hA hB hent hpa hpb
  cases tb with
  | idle =>
    cases lk with
    | none =>
      simp only [stepB, RegInv, inCrit, pcInv]
      simp only [inCrit] at hA hB
      refine ⟨?_, by simp, hent, ?_, ?_⟩
      · simpa using hA
      · exact hpa
      · rcases hent with ⟨he, _⟩ | ⟨he, _⟩
        · subst he; simp [lookupKey_nil]
        · subst he; simp [lookupKey_single]
    | some w =>
      simp only [stepB]
      exact ⟨hA, hB, hent, hpa, hpb⟩
  | checked found =>
    have hlk : lk = some true := by
      simp only [inCrit] at hB
      exact hB.mpr trivial
    subst hlk
    cases found with
    | true =>
      simp only [stepB, if_pos rfl, RegInv, inCrit, pcInv]
      simp only [pcInv, if_pos rfl] at hpb
      simp only [inCrit] at hA
      refine ⟨by simpa using hA, by simp, hent, hpa, hpb⟩
    | false =>
      simp [pcInv] at hpb
      subst hpb
      rcases hent with ⟨_, hld⟩ | ⟨he, _⟩
      · subst hld
        simp only [stepB, if_pos rfl, RegInv, inCrit, pcInv]
        refine ⟨?_, by simp, ?_, ?_, by simp⟩
        · simp only [inCrit] at hA
          simpa using hA
        · right; simp
        · simp only [inCrit] at hA
          have hta : inCrit ta = false := by
            cases hta2 : inCrit ta
            · rfl
            · exact absurd (hA.mpr hta2) (by simp)
          cases ta with
          | idle => simp [pcInv]
          | checked f2 => simp [inCrit] at hta
          | acted => simp [inCrit] at hta
          | done r =>
            simp only [pcInv] at hpa
            exact absurd hpa.2 (by simp)
      · exact absurd he (by simp)
  | acted =>
    have hlk : lk = some true := by
      simp only [inCrit] at hB
      exact hB.mpr trivial
    subst hlk
    simp only [pcInv] at hpb
    simp only [stepB, if_pos rfl, RegInv, inCrit, pcInv]
    subst hpb
    simp only [inCrit] at hA
    refine ⟨by simpa using hA, by simp, hent, hpa, ?_⟩
    exact ⟨by simp [lookupKey_single], rfl⟩
  | done r =>
    simp only [stepB]
    exact ⟨hA, hB, hent, hpa, hpb⟩

lemma regStep_preserves (p : String) (nl : Library) (i : Bool) (s : RegSys)
    (h : RegInv p nl s) : RegInv p nl (regStep p nl i s) := by
  cases i with
  | false => exact stepA_preserves p nl s h
  | true => exact stepB_preserves p nl s h

lemma regRun_inv (p : String) (nl : Library) :
    ∀ (sched : List Bool) (s : RegSys),
      RegInv p nl s → RegInv p nl (regRun p nl sched s) := by
  intro sched
  induction sched with
  | nil => intro s h; exact h
  | cons i rest ih =>
    intro s h
    exact ih (regStep p nl i s) (regStep_preserves p nl i s h)

lemma regInit_inv (p : String) (nl : Library) : RegInv p nl regInit := by
  refine ⟨by simp [regInit, inCrit], by simp [regInit, inCrit], ?_, ?_, ?_⟩
  · left; exact ⟨rfl, rfl⟩
  · exact trivial
  · exact trivial

lemma stepA_mono (p : String) (nl : Library) (s : RegSys)
    (e : String × Library) (he : e ∈ s.entries) : e ∈ (stepA p nl s).entries := by
  obtain ⟨lk, ent, lds, ta, tb⟩ := s
  cases ta with
  | idle =>
    cases lk with
    | none => simpa [stepA] using he
    | some w => simpa [stepA] using he
  | checked found =>
    by_cases hlk : lk = some false
    · cases found with
      | true => simpa [stepA, hlk] using he
      | false =>
        have hm : e ∈ ent ++ [(p, nl)] := List.mem_append_left _ he
        simpa [stepA, hlk] using hm
    · cases found <;> simpa [stepA, hlk] using he
  | acted =>
    by_cases hlk : lk = some false
    · simpa [stepA, hlk] using he
    · simpa [stepA, hlk] using he
  | done r => simpa [stepA] using he

lemma stepB_mono (p : String) (nl : Library) (s : RegSys)
    (e : String × Library) (he : e ∈ s.entries) : e ∈ (stepB p nl s).entries := by
  obtain ⟨lk, ent, lds, ta, tb⟩ := s
  cases tb with
  | idle =>
    cases lk with
    | none => simpa [stepB] using he
    | some w => simpa [stepB] using he
  | checked found =>
    by_cases hlk : lk = some true
    · cases found with
      | true => simpa [stepB, hlk] using he
      | false =>
        have hm : e ∈ ent ++ [(p, nl)] := List.mem_append_left _ he
        simpa [stepB, hlk] using hm
    · cases found <;> simpa [stepB, hlk] using he
  | acted =>
    by_cases hlk : lk = some true
    · simpa [stepB, hlk] using he
    · simpa [stepB, hlk] using he
  | done r => simpa [stepB] using he

lemma regStep_mono (p : String) (nl : Library) (i : Bool) (s : RegSys)
    (e : String × Library) (he : e ∈ s.entries) :
    e ∈ (regStep p nl i s).entries := by
  cases i with
  | false => exact stepA_mono p nl s e he
  | true => exact stepB_mono p nl s e he

lemma load_ok_inv (lib : Library) (fn : String) (argtypesOpt rt : Option PyObj)
    (abi : Abi) (f : Function)
    (h : Function.load lib fn argtypesOpt rt abi = Except.ok f) :
    ∃ (ts : List FfiType) (ptr : Nat) (rt2 : FfiType × Option PyObj),
      ffiArgTypesFromArgtypes argtypesOpt = Except.ok ts ∧
      lookupKey lib (fn ++ nulString) = some ptr ∧
      classifyRestype rt = Except.ok rt2 ∧
      f = { args := ts
            pointer := ptr
            cif := { argTypes := ts, retType := rt2.1 }
            ffiReturnType := rt2.1
            originalRestype := rt2.2 } := by
  unfold Function.load at h
  split at h
  · exact Except.noConfusion h
  rename_i ts h1
  split at h
  · exact Except.noConfusion h
  rename_i ptr h2
  split at h
  · exact Except.noConfusion h
  rename_i rt2 h3
  injection h with h4
  exact ⟨ts, ptr, rt2, h1, h2, h3, h4.symm⟩

/-- C1 counterexample: the registry is keyed by the verbatim path string,
not a canonical path.  The spellings "./x.so" and "x.so" have the same
canonical path (a leading ./ does not change the file) but are distinct
strings, so opening the one and then the other — each native open yielding
the same library — performs a native load on each open (two in total, one
per call, where the claim requires exactly one) and produces two distinct
registry entries under different keys, so the two handles do not reference
the same entry. -/
theorem c1_counterexample :
    canonicalPath "./x.so" = canonicalPath "x.so" ∧
    "./x.so" ≠ "x.so" ∧
    dllNewWith Abi.cdecl (fun _ => Except.ok [("f", 1)]) [] "./x.so"
      = (Except.ok { libraryName := "./x.so", defaultAbi := Abi.cdecl },
         [("./x.so", [("f", 1)])], 1) ∧
    dllNewWith Abi.cdecl (fun _ => Except.ok [("f", 1)])
        [("./x.so", [("f", 1)])] "x.so"
      = (Except.ok { libraryName := "x.so", defaultAbi := Abi.cdecl },
         [("./x.so", [("f", 1)]), ("x.so", [("f", 1)])], 1) :=
  ⟨by decide, by decide, by rfl, by rfl⟩

/-- C1 amended: with the registry keyed by the verbatim path string (the
code performs no canonicalization, so distinct spellings of one canonical
path are cached and loaded independently), opening the same path string
twice performs exactly one native load: under the single write-lock
acquisition of the open protocol, the existence check and the insert are
not separable by the other thread — for every interleaving of two
concurrent opens of the same path string, at most one native load happens,
when both opens finish exactly one native load has happened and both
observe the same registry entry; a step never removes a cache entry; and a
sequential re-open of an already-cached path string performs no native
load and returns a handle referencing the same cache unchanged. -/
theorem c1_registry_atomic (p : String) (nl : Library) :
    (∀ (s : RegSys) (i : Bool) (e : String × Library),
        e ∈ s.entries → e ∈ (regStep p nl i s).entries) ∧
    (∀ sched : List Bool, (regRun p nl sched regInit).loads ≤ 1) ∧
    (∀ (sched : List Bool) (ra rb : Option Library),
        (regRun p nl sched regInit).thrA = TPc.done ra →
        (regRun p nl sched regInit).thrB = TPc.done rb →
        ra = some nl ∧ rb = some nl ∧ (regRun p nl sched regInit).loads = 1) ∧
    (∀ (abi : Abi) (nopen : NativeOpen) (st : LibCache),
        (lookupKey st p).isSome = true →
        dllNewWith abi nopen st p
          = (Except.ok { libraryName := p, defaultAbi := abi }, st, 0)) := by
  refine ⟨?_, ?_, ?_, ?_⟩
  · intro s i e he
    exact regStep_mono p nl i s e he
  · intro sched
    have h := regRun_inv p nl sched regInit (regInit_inv p nl)
    rcases h.2.2.1 with ⟨_, h0⟩ | ⟨_, h1⟩
    · rw [h0]; omega
    · rw [h1]
  · intro sched ra rb hdA hdB
    have h := regRun_inv p nl sched regInit (regInit_inv p nl)
    obtain ⟨-, -, hent, hpa, hpb⟩ := h
    rw [hdA] at hpa
    rw [hdB] at hpb
    simp only [pcInv] at hpa hpb
    refine ⟨hpa.1, hpb.1, ?_⟩
    rcases hent with ⟨he, _⟩ | ⟨_, hl⟩
    · have : ([] : LibCache) = [(p, nl)] := he.symm.trans hpa.2
      simp at this
    · exact hl
  · intro abi nopen st hst
    simp [dllNewWith, hst]

/-- C1 witness: a concrete schedule in which thread A performs the whole
open first and thread B then runs; both finish observing the single loaded
entry and exactly one native load happened; the sequential re-open of the
cached path returns the cache unchanged. -/
theorem c1_registry_atomic_witness :
    ((regRun "libc.so" [("f", 1)] [false, false, false, true, true, true]
        regInit).thrA = TPc.done (some [("f", 1)]) ∧
     (regRun "libc.so" [("f", 1)] [false, false, false, true, true, true]
        regInit).thrB = TPc.done (some [("f", 1)])) ∧
    ((some [("f", 1)] : Option Library) = some [("f", 1)] ∧
     (some [("f", 1)] : Option Library) = some [("f", 1)] ∧
     (regRun "libc.so" [("f", 1)] [false, false, false, true, true, true]
        regInit).loads = 1) ∧
    ((lookupKey [("libc.so", [("f", 1)])] "libc.so").isSome = true ∧
     dllNewWith Abi.cdecl (fun _ => Except.error "unreachable")
         [("libc.so", [("f", 1)])] "libc.so"
       = (Except.ok { libraryName := "libc.so", defaultAbi := Abi.cdecl },
          [("libc.so", [("f", 1)])], 0)) :=
  ⟨⟨by decide, by decide⟩,
   (c1_registry_atomic "libc.so" [("f", 1)]).2.2.1
     [false, false, false, true, true, true]
     (some [("f", 1)]) (some [("f", 1)]) (by decide) (by decide),
   by decide,
   (c1_registry_atomic "libc.so" [("f", 1)]).2.2.2 Abi.cdecl
     (fun _ => Except.error "unreachable") [("libc.so", [("f", 1)])]
     (by decide)⟩

/-- C9: when the native open of a path not yet cached fails, the open
operation fails with an os error carrying the path and the native
diagnostic, the cache is returned exactly as it was (after one fresh native
attempt, so failures are not cached); and from that same cache a subsequent
open whose native open succeeds inserts the library and returns a handle. -/
theorem c9_load_failure (nopen : NativeOpen) (st : LibCache)
    (path diag : String) (abi : Abi)
    (habs : (lookupKey st path).isSome = false)
    (hfail : nopen path = Except.error diag) :
    dllNewWith abi nopen st path
      = (Except.error (PyErr.osError (loadErrMsg path diag)), st, 1) ∧
    (∀ (nopen2 : NativeOpen) (path2 : String) (lib : Library),
        (lookupKey st path2).isSome = false →
        nopen2 path2 = Except.ok lib →
        dllNewWith abi nopen2 st path2
          = (Except.ok { libraryName := path2, defaultAbi := abi },
             st ++ [(path2, lib)], 1)) := by
  constructor
  · simp [dllNewWith, habs, hfail]
  · intro nopen2 path2 lib h2 hok
    simp [dllNewWith, h2, hok]

/-- C9 witness: opening "bad.so" on an empty cache with a failing native
open errors and leaves the cache empty; opening "good.so" afterwards with a
succeeding native open inserts it. -/
theorem c9_load_failure_witness :
    ((lookupKey ([] : LibCache) "bad.so").isSome = false ∧
     (fun _ : String => (Except.error "not found" : Except String Library))
         "bad.so" = Except.error "not found") ∧
    dllNewWith Abi.cdecl (fun _ => Except.error "not found") [] "bad.so"
      = (Except.error (PyErr.osError (loadErrMsg "bad.so" "not found")), [], 1) ∧
    dllNewWith Abi.cdecl (fun _ => Except.ok [("g", 5)]) [] "good.so"
      = (Except.ok { libraryName := "good.so", defaultAbi := Abi.cdecl },
         [("good.so", [("g", 5)])], 1) :=
  ⟨⟨rfl, rfl⟩,
   (c9_load_failure (fun _ => Except.error "not found") [] "bad.so" "not found"
      Abi.cdecl rfl rfl).1,
   (c9_load_failure (fun _ => Except.error "not found") [] "bad.so" "not found"
      Abi.cdecl rfl rfl).2 (fun _ => Except.ok [("g", 5)]) "good.so"
      [("g", 5)] rfl rfl⟩

/-- C10: attribute access on a library handle whose library is cached
yields a fresh symbol-bound handle with empty metadata, for every name and
regardless of the library's symbol table; the symbol is resolved only when
a call loads the descriptor, where the NUL-terminated name is looked up and
its absence is an attribute error. -/
theorem c10_lazy_symbol (d : DllHandle) (reg : LibCache) (name : String)
    (library : Library)
    (hreg : lookupKey reg d.libraryName = some library) :
    dllGetattr d reg name
      = Except.ok (newForDll name d.libraryName d.defaultAbi) ∧
    (newForDll name d.libraryName d.defaultAbi).restype = Option.none ∧
    (newForDll name d.libraryName d.defaultAbi).argtypes = Option.none ∧
    (newForDll name d.libraryName d.defaultAbi).errcheck = Option.none ∧
    (lookupKey library (name ++ nulString) = Option.none →
      ∀ rt : Option PyObj,
        Function.load library name Option.none rt d.defaultAbi
          = Except.error (PyErr.attributeError (symbolNotFoundMsg name))) := by
  refine ⟨?_, rfl, rfl, rfl, ?_⟩
  · simp [dllGetattr, hreg]
  · intro habs rt
    simp [Function.load, ffiArgTypesFromArgtypes, habs]

/-- C10 witness: on a library with an empty symbol table, attribute access
for "missing" succeeds with a fresh empty-metadata handle, and loading the
descriptor fails with the attribute error. -/
theorem c10_lazy_symbol_witness :
    lookupKey [("m", ([] : Library))] "m" = some [] ∧
    (dllGetattr { libraryName := "m", defaultAbi := Abi.stdcall }
        [("m", [])] "missing"
      = Except.ok (newForDll "missing" "m" Abi.stdcall) ∧
     Function.load [] "missing" Option.none Option.none Abi.stdcall
       = Except.error (PyErr.attributeError (symbolNotFoundMsg "missing"))) :=
  ⟨by decide,
   (c10_lazy_symbol { libraryName := "m", defaultAbi := Abi.stdcall }
      [("m", [])] "missing" [] (by decide)).1,
   (c10_lazy_symbol { libraryName := "m", defaultAbi := Abi.stdcall }
      [("m", [])] "missing" [] (by decide)).2.2.2.2 rfl Option.none⟩

/-- C2: once the arity check and argument conversion pass, result decoding
follows the return specification: with no stored restype the managed
no-value singleton is returned for every native world; with a stored typed
tag the raw native result is read and wrapped exactly as the spec's tag
table prescribes. -/
theorem c2_result_decoding (f : Function) (env : CallEnv) (nw : NativeWorld)
    (args : List PyObj) (ffiArgs : List FfiArg)
    (hlen : args.length = f.args.length)
    (hconv : convertArgs args f.args = Except.ok ffiArgs) :
    (f.originalRestype = Option.none →
      Function.callT f env nw args = (Except.ok PyObj.none, 1)) ∧
    (∀ tag, tag ∈ supportedResultTags →
      f.originalRestype = some (PyObj.ctypeType tag) →
      Function.callT f env nw args
        = (Except.ok (specWrap tag (nw f.pointer ffiArgs)), 1)) := by
  constructor
  · intro hres
    simp [Function.callT, hlen, hconv, hres]
  · intro tag htag hres
    simp only [supportedResultTags, List.mem_cons, List.not_mem_nil, or_false]
      at htag
    rcases htag with rfl | rfl | rfl | rfl | rfl | rfl | rfl | rfl | rfl | rfl
      | rfl | rfl | rfl | rfl | rfl <;>
      simp [Function.callT, hlen, hconv, hres, decodeTyped, specWrap,
        resultTagSupported, readI, readU] <;>
      split <;> rfl

/-- C2 witness: a zero-argument function whose stored restype is the i tag
and whose native call leaves 5 in the register decodes to the managed
integer 5; the same function with no restype returns the no-value
singleton. -/
theorem c2_result_decoding_witness :
    (([] : List PyObj).length
        = ({ args := [], pointer := 7, cif := { argTypes := [], retType := FfiType.sint32 },
             ffiReturnType := FfiType.sint32,
             originalRestype := some (PyObj.ctypeType "i") } : Function).args.length ∧
     convertArgs [] [] = Except.ok []) ∧
    Function.callT
        { args := [], pointer := 7,
          cif := { argTypes := [], retType := FfiType.sint32 },
          ffiReturnType := FfiType.sint32,
          originalRestype := some (PyObj.ctypeType "i") }
        (fun _ _ => Except.ok PyObj.none)
        (fun _ _ => { raw := 5, mem := [] }) []
      = (Except.ok (specWrap "i" { raw := 5, mem := [] }), 1) ∧
    Function.callT
        { args := [], pointer := 7,
          cif := { argTypes := [], retType := FfiType.void },
          ffiReturnType := FfiType.void, originalRestype := Option.none }
        (fun _ _ => Except.ok PyObj.none)
        (fun _ _ => { raw := 5, mem := [] }) []
      = (Except.ok PyObj.none, 1) :=
  ⟨⟨rfl, rfl⟩,
   (c2_result_decoding
      { args := [], pointer := 7,
        cif := { argTypes := [], retType := FfiType.sint32 },
        ffiReturnType := FfiType.sint32,
        originalRestype := some (PyObj.ctypeType "i") }
      (fun _ _ => Except.ok PyObj.none)
      (fun _ _ => { raw := 5, mem := [] }) [] [] rfl rfl).2 "i"
      (by simp [supportedResultTags]) rfl,
   (c2_result_decoding
      { args := [], pointer := 7,
        cif := { argTypes := [], retType := FfiType.void },
        ffiReturnType := FfiType.void, originalRestype := Option.none }
      (fun _ _ => Except.ok PyObj.none)
      (fun _ _ => { raw := 5, mem := [] }) [] [] rfl rfl).1 rfl⟩

/-- C3: after a successful native call producing the raw decoded result,
a set error-check hook is invoked with exactly the raw result, the handle
object itself and the original arguments as an ordered tuple, and its
return value (or failure) is the final outcome of the call; with the hook
unset the raw result is returned unchanged. -/
theorem c3_errcheck_hook (h : PyCFuncPtr) (reg : LibCache) (env : CallEnv)
    (nw : NativeWorld) (args : List PyObj) (libName : String)
    (library : Library) (f : Function) (raw : PyObj)
    (hlib : h.libraryName = some libName)
    (hreg : lookupKey reg libName = some library)
    (hload : Function.load library h.name h.argtypes h.restype h.abi
      = Except.ok f)
    (hcall : (Function.callT f env nw args).1 = Except.ok raw) :
    (∀ id, h.errcheck = some id →
      pyCFuncPtrCall h reg env nw args
        = env id [raw, h.asObject, PyObj.tuple args]) ∧
    (h.errcheck = Option.none →
      pyCFuncPtrCall h reg env nw args = Except.ok raw) := by
  constructor
  · intro id hec
    simp [pyCFuncPtrCall, hlib, hreg, hload, hcall, hec]
  · intro hec
    simp [pyCFuncPtrCall, hlib, hreg, hload, hcall, hec]

/-- C3 witness (the spec's doubling-hook scenario): the native call returns
5 under an i restype, the hook doubles its first argument, so the call
yields the managed integer 10 while the hook observes the handle object and
the empty-argument tuple. -/
theorem c3_errcheck_hook_witness :
    (({ name := "f", restype := some (PyObj.ctypeType "i"),
        libraryName := some "m", abi := Abi.cdecl, argtypes := Option.none,
        errcheck := some 0 } : PyCFuncPtr).libraryName = some "m" ∧
     lookupKey [("m", [("f" ++ nulString, 7)])] "m"
       = some [("f" ++ nulString, 7)]) ∧
    pyCFuncPtrCall
        { name := "f", restype := some (PyObj.ctypeType "i"),
          libraryName := some "m", abi := Abi.cdecl,
          argtypes := Option.none, errcheck := some 0 }
        [("m", [("f" ++ nulString, 7)])]
        (fun (cid : Nat) (vals : List PyObj) =>
          if cid = 0 then
            match vals with
            | PyObj.int n :: _ => Except.ok (PyObj.int (2 * n))
            | _ => Except.ok PyObj.none
          else Except.ok PyObj.none)
        (fun _ _ => { raw := 5, mem := [] }) []
      = (fun (cid : Nat) (vals : List PyObj) =>
          if cid = 0 then
            match vals with
            | PyObj.int n :: _ => Except.ok (PyObj.int (2 * n))
            | _ => Except.ok PyObj.none
          else Except.ok PyObj.none) 0
          [PyObj.int 5,
           PyCFuncPtr.asObject
             { name := "f", restype := some (PyObj.ctypeType "i"),
               libraryName := some "m", abi := Abi.cdecl,
               argtypes := Option.none, errcheck := some 0 },
           PyObj.tuple []] ∧
    pyCFuncPtrCall
        { name := "f", restype := some (PyObj.ctypeType "i"),
          libraryName := some "m", abi := Abi.cdecl,
          argtypes := Option.none, errcheck := some 0 }
        [("m", [("f" ++ nulString, 7)])]
        (fun (cid : Nat) (vals : List PyObj) =>
          if cid = 0 then
            match vals with
            | PyObj.int n :: _ => Except.ok (PyObj.int (2 * n))
            | _ => Except.ok PyObj.none
          else Except.ok PyObj.none)
        (fun _ _ => { raw := 5, mem := [] }) []
      = Except.ok (PyObj.int 10) :=
  ⟨⟨rfl, rfl⟩,
   (c3_errcheck_hook
      { name := "f", restype := some (PyObj.ctypeType "i"),
        libraryName := some "m", abi := Abi.cdecl, argtypes := Option.none,
        errcheck := some 0 }
      [("m", [("f" ++ nulString, 7)])]
      (fun (cid : Nat) (vals : List PyObj) =>
        if cid = 0 then
          match vals with
          | PyObj.int n :: _ => Except.ok (PyObj.int (2 * n))
          | _ => Except.ok PyObj.none
        else Except.ok PyObj.none)
      (fun _ _ => { raw := 5, mem := [] }) [] "m" [("f" ++ nulString, 7)]
      { args := [], pointer := 7,
        cif := { argTypes := [], retType := FfiType.sint32 },
        ffiReturnType := FfiType.sint32,
        originalRestype := some (PyObj.ctypeType "i") }
      (PyObj.int 5) rfl (by rfl) (by rfl) (by rfl)).1 0 rfl,
   by rfl⟩

/-- C4: a stored restype that is a callable (not a type descriptor) makes
the call read the native result as a 4-byte signed integer and pass it to
the callable, whose outcome (value or failure) is returned directly; and
loading with such a restype resolves the native return type to int32 while
storing the callable. -/
theorem c4_transformed (f : Function) (env : CallEnv) (nw : NativeWorld)
    (args : List PyObj) (ffiArgs : List FfiArg) (id : Nat)
    (hlen : args.length = f.args.length)
    (hconv : convertArgs args f.args = Except.ok ffiArgs)
    (hres : f.originalRestype = some (PyObj.callableObj id)) :
    Function.callT f env nw args
      = (env id [PyObj.int (readI 32 (nw f.pointer ffiArgs))], 1) ∧
    (∀ (lib : Library) (fn : String) (argtypesOpt : Option PyObj) (abi : Abi)
        (g : Function),
      Function.load lib fn argtypesOpt (some (PyObj.callableObj id)) abi
        = Except.ok g →
      g.ffiReturnType = FfiType.sint32 ∧
      g.originalRestype = some (PyObj.callableObj id)) := by
  constructor
  · simp [Function.callT, hlen, hconv, hres]
  · intro lib fn argtypesOpt abi g hg
    obtain ⟨ts, ptr, rt2, h1, h2, h3, hgeq⟩ :=
      load_ok_inv lib fn argtypesOpt (some (PyObj.callableObj id)) abi g hg
    have hrt2 : (FfiType.sint32, some (PyObj.callableObj id)) = rt2 := by
      simpa [classifyRestype] using h3
    subst hrt2
    subst hgeq
    exact ⟨rfl, rfl⟩

/-- C4 witness: with a callable restype that fails, the failure propagates
unchanged as the call's outcome; applied at a failing transform callable,
and the load conjunct at a concrete library. -/
theorem c4_transformed_witness :
    (([] : List PyObj).length
        = ({ args := [], pointer := 7,
             cif := { argTypes := [], retType := FfiType.sint32 },
             ffiReturnType := FfiType.sint32,
             originalRestype := some (PyObj.callableObj 3) } : Function).args.length ∧
     convertArgs [] [] = Except.ok [] ∧
     ({ args := [], pointer := 7,
        cif := { argTypes := [], retType := FfiType.sint32 },
        ffiReturnType := FfiType.sint32,
        originalRestype := some (PyObj.callableObj 3) } : Function).originalRestype
       = some (PyObj.callableObj 3)) ∧
    Function.callT
        { args := [], pointer := 7,
          cif := { argTypes := [], retType := FfiType.sint32 },
          ffiReturnType := FfiType.sint32,
          originalRestype := some (PyObj.callableObj 3) }
        (fun _ _ => Except.error (PyErr.typeError "boom"))
        (fun _ _ => { raw := 5, mem := [] }) []
      = (Except.error (PyErr.typeError "boom"), 1) ∧
    (Function.load [("f" ++ nulString, 7)] "f" Option.none
        (some (PyObj.callableObj 3)) Abi.cdecl
      = Except.ok
          { args := [], pointer := 7,
            cif := { argTypes := [], retType := FfiType.sint32 },
            ffiReturnType := FfiType.sint32,
            originalRestype := some (PyObj.callableObj 3) } ∧
     ({ args := [], pointer := 7,
        cif := { argTypes := [], retType := FfiType.sint32 },
        ffiReturnType := FfiType.sint32,
        originalRestype := some (PyObj.callableObj 3) } : Function).ffiReturnType
         = FfiType.sint32) :=
  ⟨⟨rfl, rfl, rfl⟩,
   (c4_transformed
      { args := [], pointer := 7,
        cif := { argTypes := [], retType := FfiType.sint32 },
        ffiReturnType := FfiType.sint32,
        originalRestype := some (PyObj.callableObj 3) }
      (fun _ _ => Except.error (PyErr.typeError "boom"))
      (fun _ _ => { raw := 5, mem := [] }) [] [] 3 rfl rfl rfl).1,
   by rfl,
   ((c4_transformed
      { args := [], pointer := 7,
        cif := { argTypes := [], retType := FfiType.sint32 },
        ffiReturnType := FfiType.sint32,
        originalRestype := some (PyObj.callableObj 3) }
      (fun _ _ => Except.error (PyErr.typeError "boom"))
      (fun _ _ => { raw := 5, mem := [] }) [] [] 3 rfl rfl rfl).2
      [("f" ++ nulString, 7)] "f" Option.none Abi.cdecl
      { args := [], pointer := 7,
        cif := { argTypes := [], retType := FfiType.sint32 },
        ffiReturnType := FfiType.sint32,
        originalRestype := some (PyObj.callableObj 3) } (by rfl)).1⟩

/-- C5: for a handle loaded with a declared argtypes tuple of length n,
supplying a different number of arguments fails with the argument-count
error reporting expected n and the actual count, and no native call is
performed. -/
theorem c5_arity_mismatch (lib : Library) (fn : String) (elems : List PyObj)
    (rt : Option PyObj) (abi : Abi) (f : Function) (env : CallEnv)
    (nw : NativeWorld) (args : List PyObj)
    (hload : Function.load lib fn (some (PyObj.tuple elems)) rt abi
      = Except.ok f)
    (hmis : args.length ≠ elems.length) :
    Function.callT f env nw args
      = (Except.error (PyErr.typeError (arityMsg elems.length args.length)),
         0) := by
  obtain ⟨ts, ptr, rt2, h1, h2, h3, hgeq⟩ :=
    load_ok_inv lib fn (some (PyObj.tuple elems)) rt abi f hload
  simp only [ffiArgTypesFromArgtypes] at h1
  have hts : ts.length = elems.length := exMapM_length argElemFfiType elems ts h1
  subst hgeq
  have hne : args.length ≠
      ({ args := ts, pointer := ptr,
         cif := { argTypes := ts, retType := rt2.1 },
         ffiReturnType := rt2.1, originalRestype := rt2.2 } : Function).args.length := by
    simpa [hts] using hmis
  simp only [Function.callT]
  rw [if_pos hne]
  simp [hts]

/-- C5 witness (the spec's expected-2 scenario): a handle with two declared
argument types called with one argument fails with the message reporting
expected 2, got 1, and the native-call count is 0. -/
theorem c5_arity_mismatch_witness :
    (Function.load [("f" ++ nulString, 7)] "f"
        (some (PyObj.tuple [PyObj.ctypeType "i", PyObj.ctypeType "i"]))
        Option.none Abi.cdecl
      = Except.ok
          { args := [FfiType.sint32, FfiType.sint32], pointer := 7,
            cif := { argTypes := [FfiType.sint32, FfiType.sint32],
                     retType := FfiType.void },
            ffiReturnType := FfiType.void, originalRestype := Option.none } ∧
     [PyObj.csimple "i" 4].length ≠
       ([PyObj.ctypeType "i", PyObj.ctypeType "i"] : List PyObj).length) ∧
    Function.callT
        { args := [FfiType.sint32, FfiType.sint32], pointer := 7,
          cif := { argTypes := [FfiType.sint32, FfiType.sint32],
                   retType := FfiType.void },
          ffiReturnType := FfiType.void, originalRestype := Option.none }
        (fun _ _ => Except.ok PyObj.none)
        (fun _ _ => { raw := 0, mem := [] }) [PyObj.csimple "i" 4]
      = (Except.error (PyErr.typeError (arityMsg 2 1)), 0) ∧
    arityMsg 2 1 = "Expected 2 arguments (based on _argtypes_), got 1" :=
  ⟨⟨by rfl, by decide⟩,
   c5_arity_mismatch [("f" ++ nulString, 7)] "f"
     [PyObj.ctypeType "i", PyObj.ctypeType "i"] Option.none Abi.cdecl
     { args := [FfiType.sint32, FfiType.sint32], pointer := 7,
       cif := { argTypes := [FfiType.sint32, FfiType.sint32],
                retType := FfiType.void },
       ffiReturnType := FfiType.void, originalRestype := Option.none }
     (fun _ _ => Except.ok PyObj.none)
     (fun _ _ => { raw := 0, mem := [] }) [PyObj.csimple "i" 4]
     (by rfl) (by decide),
   by rfl⟩

/-- C6 counterexample: a handle loaded with argtypes never declared
(argtypes None) and invoked with one argument does raise an argument-count
failure ("Expected 0 arguments (based on _argtypes_), got 1"), contradicting
the claim that no argument-count failure is raised for any supplied count
when the argument-type sequence is unconstrained. -/
theorem c6_counterexample :
    Function.load [("f" ++ nulString, 7)] "f" Option.none Option.none
        Abi.cdecl
      = Except.ok
          { args := [], pointer := 7,
            cif := { argTypes := [], retType := FfiType.void },
            ffiReturnType := FfiType.void, originalRestype := Option.none } ∧
    Function.callT
        { args := [], pointer := 7,
          cif := { argTypes := [], retType := FfiType.void },
          ffiReturnType := FfiType.void, originalRestype := Option.none }
        (fun _ _ => Except.ok PyObj.none)
        (fun _ _ => { raw := 0, mem := [] }) [PyObj.int 1]
      = (Except.error (PyErr.typeError
          "Expected 0 arguments (based on _argtypes_), got 1"), 0) :=
  ⟨rfl, rfl⟩

/-- C6 amended: a handle whose argument-type sequence is unconstrained
(never declared or cleared to None) is loaded with an empty declared
argument list, so invocation checks the supplied count against zero: any
nonempty argument list fails with the count error reporting expected 0 and
the actual count (before any native call); only zero-argument calls pass
the arity check. -/
theorem c6_amended_arity (lib : Library) (fn : String) (rt : Option PyObj)
    (abi : Abi) (f : Function) (env : CallEnv) (nw : NativeWorld)
    (args : List PyObj)
    (hload : Function.load lib fn Option.none rt abi = Except.ok f) :
    f.args = [] ∧
    (args ≠ [] →
      Function.callT f env nw args
        = (Except.error (PyErr.typeError (arityMsg 0 args.length)), 0)) := by
  obtain ⟨ts, ptr, rt2, h1, h2, h3, hgeq⟩ :=
    load_ok_inv lib fn Option.none rt abi f hload
  have hts : ts = [] := by
    simpa [ffiArgTypesFromArgtypes] using h1.symm
  subst hts
  subst hgeq
  refine ⟨rfl, ?_⟩
  intro hne
  have hlen : args.length ≠ 0 := by
    simpa [List.length_eq_zero] using hne
  simp [Function.callT, hlen]

/-- C6 amended witness: the zero-checked arity error at two supplied
arguments, and the empty declared list after loading with argtypes None. -/
theorem c6_amended_arity_witness :
    (Function.load [("f" ++ nulString, 7)] "f" Option.none Option.none
        Abi.cdecl
      = Except.ok
          { args := [], pointer := 7,
            cif := { argTypes := [], retType := FfiType.void },
            ffiReturnType := FfiType.void, originalRestype := Option.none } ∧
     ([PyObj.int 1, PyObj.int 2] : List PyObj) ≠ []) ∧
    ({ args := [], pointer := 7,
       cif := { argTypes := [], retType := FfiType.void },
       ffiReturnType := FfiType.void,
       originalRestype := Option.none } : Function).args = [] ∧
    Function.callT
        { args := [], pointer := 7,
          cif := { argTypes := [], retType := FfiType.void },
          ffiReturnType := FfiType.void, originalRestype := Option.none }
        (fun _ _ => Except.ok PyObj.none)
        (fun _ _ => { raw := 0, mem := [] }) [PyObj.int 1, PyObj.int 2]
      = (Except.error (PyErr.typeError (arityMsg 0 2)), 0) :=
  ⟨⟨by rfl, by simp⟩,
   (c6_amended_arity [("f" ++ nulString, 7)] "f" Option.none Abi.cdecl
      { args := [], pointer := 7,
        cif := { argTypes := [], retType := FfiType.void },
        ffiReturnType := FfiType.void, originalRestype := Option.none }
      (fun _ _ => Except.ok PyObj.none)
      (fun _ _ => { raw := 0, mem := [] }) [PyObj.int 1, PyObj.int 2]
      (by rfl)).1,
   (c6_amended_arity [("f" ++ nulString, 7)] "f" Option.none Abi.cdecl
      { args := [], pointer := 7,
        cif := { argTypes := [], retType := FfiType.void },
        ffiReturnType := FfiType.void, originalRestype := Option.none }
      (fun _ _ => Except.ok PyObj.none)
      (fun _ _ => { raw := 0, mem := [] }) [PyObj.int 1, PyObj.int 2]
      (by rfl)).2 (by simp)⟩

/-- C7 counterexample: two loads of the same symbol with the same metadata
but different calling conventions (cdecl versus stdcall) produce identical
Function values — in particular the same call interface — so the built
interface does not depend on the handle's calling convention and the native
call does not execute under it, contradicting the claim. -/
theorem c7_counterexample :
    Function.load [("g" ++ nulString, 3)] "g" Option.none Option.none
        Abi.cdecl
      = Function.load [("g" ++ nulString, 3)] "g" Option.none Option.none
          Abi.stdcall :=
  rfl

/-- C7 amended: the native call interface is built from the resolved
argument types and the resolved native return type only; the calling
convention (cdecl default for the CDLL and PyDLL flavors, stdcall for the
WinDLL and OleDLL flavors, inherited by the handles they create and
reported by name) is accepted by load but never enters the built call
interface, so loads differing only in convention are identical. -/
theorem c7_amended_interface :
    (∀ (lib : Library) (fn : String) (argtypesOpt rt : Option PyObj)
        (abi1 abi2 : Abi),
      Function.load lib fn argtypesOpt rt abi1
        = Function.load lib fn argtypesOpt rt abi2) ∧
    (∀ (lib : Library) (fn : String) (argtypesOpt rt : Option PyObj)
        (abi : Abi) (g : Function),
      Function.load lib fn argtypesOpt rt abi = Except.ok g →
      g.cif = { argTypes := g.args, retType := g.ffiReturnType }) ∧
    pyCDLLNew = dllNewWith Abi.cdecl ∧
    pyWinDLLNew = dllNewWith Abi.stdcall ∧
    pyOleDLLNew = dllNewWith Abi.stdcall ∧
    pyPyDLLNew = dllNewWith Abi.cdecl ∧
    (∀ (d : DllHandle) (reg : LibCache) (name : String) (h2 : PyCFuncPtr),
      dllGetattr d reg name = Except.ok h2 → h2.abi = d.defaultAbi) ∧
    abiName Abi.cdecl = "cdecl" ∧ abiName Abi.stdcall = "stdcall" := by
  refine ⟨?_, ?_, rfl, rfl, rfl, rfl, ?_, rfl, rfl⟩
  · intro lib fn argtypesOpt rt abi1 abi2
    rfl
  · intro lib fn argtypesOpt rt abi g hg
    obtain ⟨ts, ptr, rt2, h1, h2, h3, hgeq⟩ :=
      load_ok_inv lib fn argtypesOpt rt abi g hg
    subst hgeq
    rfl
  · intro d reg name h2 hg
    unfold dllGetattr at hg
    split at hg
    · exact Except.noConfusion hg
    · injection hg with h4
      subst h4
      rfl

/-- C7 amended witness: the convention-independence of load at a concrete
library, the interface shape of a successfully loaded Function, and the
flavor default inherited by a concrete attribute-resolved handle. -/
theorem c7_amended_interface_witness :
    Function.load [("g" ++ nulString, 3)] "g" Option.none Option.none
        Abi.stdcall
      = Function.load [("g" ++ nulString, 3)] "g" Option.none Option.none
          Abi.default ∧
    (Function.load [("g" ++ nulString, 3)] "g" Option.none Option.none
        Abi.stdcall
      = Except.ok
          { args := [], pointer := 3,
            cif := { argTypes := [], retType := FfiType.void },
            ffiReturnType := FfiType.void, originalRestype := Option.none } ∧
     ({ args := [], pointer := 3,
        cif := { argTypes := [], retType := FfiType.void },
        ffiReturnType := FfiType.void,
        originalRestype := Option.none } : Function).cif
       = { argTypes := [], retType := FfiType.void }) ∧
    (dllGetattr { libraryName := "w", defaultAbi := Abi.stdcall }
        [("w", [])] "sym" = Except.ok (newForDll "sym" "w" Abi.stdcall) ∧
     (newForDll "sym" "w" Abi.stdcall).abi
       = ({ libraryName := "w", defaultAbi := Abi.stdcall } : DllHandle).defaultAbi) :=
  ⟨c7_amended_interface.1 [("g" ++ nulString, 3)] "g" Option.none Option.none
     Abi.stdcall Abi.default,
   ⟨by rfl,
    c7_amended_interface.2.1 [("g" ++ nulString, 3)] "g" Option.none
      Option.none Abi.stdcall
      { args := [], pointer := 3,
        cif := { argTypes := [], retType := FfiType.void },
        ffiReturnType := FfiType.void, originalRestype := Option.none }
      (by rfl)⟩,
   ⟨by rfl,
    c7_amended_interface.2.2.2.2.2.2.1
      { libraryName := "w", defaultAbi := Abi.stdcall } [("w", [])] "sym"
      (newForDll "sym" "w" Abi.stdcall) (by rfl)⟩⟩

/-- C8 counterexample: setting the return specification to the managed
integer 5 — which is neither no-value, a native-type descriptor, nor a
callable — succeeds and stores it, instead of failing with an
invalid-return-spec error and leaving the field unchanged as the claim
requires. -/
theorem c8_counterexample :
    setRestype (newForDll "f" "m" Abi.cdecl) (PyObj.int 5)
      = { newForDll "f" "m" Abi.cdecl with restype := some (PyObj.int 5) } :=
  rfl

/-- C8 amended: the return-specification setter always succeeds: managed
None clears the field and every other value is stored unchanged; a stored
value that is neither None, a native-type descriptor, nor a callable is
rejected only later, when a call classifies the return source and fails
with the type error "restype must be a ctypes type, a callable, or None". -/
theorem c8_amended_setter (h : PyCFuncPtr) (v : PyObj) :
    (v = PyObj.none → setRestype h v = { h with restype := Option.none }) ∧
    (v ≠ PyObj.none → setRestype h v = { h with restype := some v }) ∧
    ((∀ tag, v ≠ PyObj.ctypeType tag) → (∀ id, v ≠ PyObj.callableObj id) →
      v ≠ PyObj.none →
      classifyRestype (some v)
        = Except.error (PyErr.typeError restypeInvalidMsg)) := by
  refine ⟨?_, ?_, ?_⟩
  · intro hv
    subst hv
    rfl
  · intro hv
    cases v with
    | none => exact absurd rfl hv
    | int n => rfl
    | boolv b => rfl
    | floatFromF32Bits bits => rfl
    | floatFromF64Bits bits => rfl
    | bytes bs => rfl
    | str s => rfl
    | tuple elems => rfl
    | ctypeType tag => rfl
    | callableObj id => rfl
    | csimple tag payload => rfl
    | carray id => rfl
    | funcPtrObj name libraryName => rfl
  · intro hct hcb hnone
    cases v with
    | none => exact absurd rfl hnone
    | ctypeType tag => exact absurd rfl (hct tag)
    | callableObj id => exact absurd rfl (hcb id)
    | int n => rfl
    | boolv b => rfl
    | floatFromF32Bits bits => rfl
    | floatFromF64Bits bits => rfl
    | bytes bs => rfl
    | str s => rfl
    | tuple elems => rfl
    | csimple tag payload => rfl
    | carray id => rfl
    | funcPtrObj name libraryName => rfl

/-- C8 amended witness: storing the (invalid) managed bool true succeeds,
and call-time classification of that stored value fails with the type
error; managed None clears the field. -/
theorem c8_amended_setter_witness :
    ((PyObj.boolv true ≠ PyObj.none) ∧
     setRestype (newForDll "f" "m" Abi.cdecl) (PyObj.boolv true)
       = { newForDll "f" "m" Abi.cdecl with
           restype := some (PyObj.boolv true) }) ∧
    classifyRestype (some (PyObj.boolv true))
      = Except.error (PyErr.typeError restypeInvalidMsg) ∧
    setRestype (newForDll "f" "m" Abi.cdecl) PyObj.none
      = { newForDll "f" "m" Abi.cdecl with restype := Option.none } :=
  ⟨⟨by simp, (c8_amended_setter (newForDll "f" "m" Abi.cdecl)
      (PyObj.boolv true)).2.1 (by simp)⟩,
   (c8_amended_setter (newForDll "f" "m" Abi.cdecl) (PyObj.boolv true)).2.2
     (fun tag => by simp) (fun id => by simp) (by simp),
   (c8_amended_setter (newForDll "f" "m" Abi.cdecl) PyObj.none).1 rfl⟩

end Ctypes
